import Mathlib

/-
Verification of the message-orchestration core of MigosiDesigns-AI-Mentor.

The whole observable behaviour lives in the `sendMessage` handler of
`src/App.tsx` together with the `Message`/`Author` data model of
`src/types.ts`.  We embed it as a pure state-transition function: the
React state (`messages`, `input`, `isLoading`) becomes an `AppState`
record, the Gemini client becomes an explicit `Provider` oracle whose
calls either throw (`Except.error`) or return a structured response,
and the JS string primitives used by the handler (`trim`, `startsWith`,
`substring`) are modelled over `String.data` so that everything is
kernel-computable.
-/

namespace MigosiMentor

/-- Author enum from src/types.ts (USER = 'user', MODEL = 'model'). -/
inductive Author where
  | USER
  | MODEL
deriving DecidableEq

/-- One entry of `Message.references` as it is built at runtime in
src/App.tsx lines 91-96: the `map` step produces `{uri: chunk.web?.uri,
title: chunk.web?.title}` whose fields may still be absent (`none`
models JS `undefined`); the subsequent `filter` keeps only entries with
both fields truthy. -/
structure RefEntry where
  uri : Option String := none
  title : Option String := none
deriving DecidableEq

/-- Message record from src/types.ts.  `text` is optional because the
TEXT-mode success path assigns `response.text`, which the SDK may leave
undefined; `none` models an absent/undefined field throughout. -/
structure Message where
  author : Author
  text : Option String
  id : String
  references : Option (List RefEntry) := none
  imageUrl : Option String := none
deriving DecidableEq

/-- Inline binary payload of a response part (`part.inlineData.data`). -/
structure InlineData where
  data : String
deriving DecidableEq

/-- One content part of an image-mode response (src/App.tsx line 60). -/
structure Part where
  inlineData : Option InlineData := none
deriving DecidableEq

/-- Content of a response candidate, holding its parts list. -/
structure Content where
  parts : List Part
deriving DecidableEq

/-- Candidate of an image-mode response; `content` may be absent. -/
structure ImageCandidate where
  content : Option Content := none
deriving DecidableEq

/-- Raw image-mode provider response; `candidates` may be absent. -/
structure ImageResponse where
  candidates : Option (List ImageCandidate) := none
deriving DecidableEq

/-- The `web` object of a grounding chunk (`chunk.web?.uri/title`). -/
structure WebInfo where
  uri : Option String := none
  title : Option String := none
deriving DecidableEq

/-- One grounding chunk of a text-mode response. -/
structure GroundingChunk where
  web : Option WebInfo := none
deriving DecidableEq

/-- Grounding metadata of a text-mode candidate. -/
structure GroundingMetadata where
  groundingChunks : Option (List GroundingChunk) := none
deriving DecidableEq

/-- Candidate of a text-mode response. -/
structure TextCandidate where
  groundingMetadata : Option GroundingMetadata := none
deriving DecidableEq

/-- Raw text-mode provider response (`response.text`,
`response.candidates`); either field may be absent. -/
structure TextResponse where
  text : Option String := none
  candidates : Option (List TextCandidate) := none
deriving DecidableEq

/-- The external generation capability consumed by `sendMessage`.
`Except.error ()` models the network call throwing. -/
structure Provider where
  generateImage : String → Except Unit ImageResponse
  generateText : String → Except Unit TextResponse

/-- One request dispatched to the provider, recording the model name
and the payload exactly as built in src/App.tsx lines 49-57 / 80-86. -/
inductive Request where
  | imageReq (model : String) (prompt : String)
  | textReq (model : String) (contents : String)
deriving DecidableEq

/-- The component state of src/App.tsx lines 7-9: the ordered message
log, the pending-input buffer and the single in-flight flag
(`isLoading = true` is the AWAITING_RESPONSE state). -/
structure AppState where
  messages : List Message
  input : String
  isLoading : Bool
deriving DecidableEq

/-- JS `String.prototype.trim`, modelled over the character list. -/
def jsTrim (s : String) : String :=
  ⟨((s.data.dropWhile Char.isWhitespace).reverse.dropWhile Char.isWhitespace).reverse⟩

/-- JS `String.prototype.startsWith`, modelled over the character list. -/
def jsStartsWith (s p : String) : Bool :=
  p.data.isPrefixOf s.data

/-- JS `String.prototype.substring(n)`, modelled over the character list. -/
def jsDrop (s : String) (n : Nat) : String :=
  ⟨s.data.drop n⟩

/-- The command token `'/imagine '` (src/App.tsx line 45). -/
def imagineCmd : String := "/imagine "

/-- The data-URI header prepended to image payloads (src/App.tsx line 63). -/
def pngDataUri : String := "data:image/png;base64,"

/-- The persona preamble concatenated before the user's prompt in the
TEXT-mode request (src/App.tsx line 82). -/
def personaPreamble : String :=
  "You are MigosiDesigns, a friendly and expert graphic design mentor. Your goal is to guide and assist users with their graphic design questions. Provide encouraging, insightful, and practical advice. User prompt: "

/-- The fixed fallback text of the error message (src/App.tsx line 112). -/
def fallbackText : String := "Sorry, I encountered an error. Please try again."

/-- The seeded greeting message (src/App.tsx lines 21-27). -/
def greetingMessage : Message :=
  { author := Author.MODEL
    text := some "Hello! I'm your MigosiDesigns AI Mentor. How can I help you with your graphic design journey today? You can also ask me to create an image by typing `/imagine` followed by a prompt."
    id := "initial-message" }

/-- Initial component state: greeting seeded, empty input, not loading. -/
def initialState : AppState :=
  { messages := [greetingMessage], input := "", isLoading := false }

/-- The USER message appended on an accepted submit (src/App.tsx lines
33-37): it stores the raw `input`, not the trimmed text. -/
def userMessageOf (input : String) (now : String) : Message :=
  { author := Author.USER, text := some input, id := now }

/-- The fallback MODEL message appended in the catch block
(src/App.tsx lines 110-114). -/
def fallbackMessage (now : String) : Message :=
  { author := Author.MODEL, text := some fallbackText, id := now ++ "-error" }

/-- The prompt dispatched in image mode:
`currentInput.trim().substring('/imagine '.length)` (line 48). -/
def imagePromptOf (input : String) : String :=
  jsDrop (jsTrim input) imagineCmd.length

/-- The contents string dispatched in text mode: persona preamble
concatenated with the raw (untrimmed) `currentInput` (line 82). -/
def textContentsOf (input : String) : String :=
  personaPreamble ++ input

/-- The image-URL scan of src/App.tsx lines 59-65, generalised over the
initial accumulator: `imageUrl` starts as the accumulator and is
overwritten by `data:image/png;base64,` + `part.inlineData.data` for
every part carrying inline data. -/
def pickImageUrlFrom (acc : String) (parts : List Part) : String :=
  parts.foldl
    (fun imageUrl part =>
      match part.inlineData with
      | some d => pngDataUri ++ d.data
      | none => imageUrl)
    acc

/-- The image-URL scan as in the source, starting from `''` (line 59). -/
def pickImageUrl (parts : List Part) : String :=
  pickImageUrlFrom "" parts

/-- The access `response.candidates[0].content.parts` of line 60 with
JS member-access semantics: `none` models the thrown TypeError when any
link of the chain is missing. -/
def imageParts (r : ImageResponse) : Option (List Part) :=
  r.candidates.bind fun cs => cs.head?.bind fun c => c.content.map Content.parts

/-- The optional chain
`response.candidates?.[0]?.groundingMetadata?.groundingChunks` of
line 89; never throws, `none` models `undefined`. -/
def groundingChunksOf (r : TextResponse) : Option (List GroundingChunk) :=
  r.candidates.bind fun cs => cs.head?.bind fun c =>
    c.groundingMetadata.bind fun g => g.groundingChunks

/-- JS truthiness of a possibly-absent string field. -/
def truthy : Option String → Bool
  | some s => s ≠ ""
  | none => false

/-- The `map` step of lines 92-95: a chunk becomes a reference entry
with possibly-absent fields. -/
def chunkToRef (c : GroundingChunk) : RefEntry :=
  { uri := c.web.bind WebInfo.uri, title := c.web.bind WebInfo.title }

/-- The `map`-then-`filter` pipeline of lines 91-96. -/
def buildRefs (chunks : List GroundingChunk) : List RefEntry :=
  (chunks.map chunkToRef).filter fun r => truthy r.uri && truthy r.title

/-- The successful image-mode MODEL message (src/App.tsx lines 68-73). -/
def imageSuccessMessage (prompt : String) (now : String) (imageUrl : String) : Message :=
  { author := Author.MODEL
    text := some ("Here is my take on: \"" ++ prompt ++ "\"")
    id := now ++ "-model"
    imageUrl := some imageUrl }

/-- The successful text-mode MODEL message (src/App.tsx lines 99-104):
`text` is `response.text` and `references` mirrors the optional
grounding pipeline, absent exactly when the chunk chain was absent. -/
def textSuccessMessage (resp : TextResponse) (now : String) : Message :=
  { author := Author.MODEL
    text := resp.text
    id := now ++ "-model"
    references := (groundingChunksOf resp).map buildRefs }

/-- The `sendMessage` handler of src/App.tsx lines 30-119 as a pure
transition: given the current state, the provider oracle and the
`Date.now()` string used for ids, it returns the next state and the
list of provider requests dispatched during the call.  The early return
of line 31 guards empty trimmed input and the in-flight flag; every
accepted path appends the USER message, then exactly one MODEL message
(success or fallback), clears the input buffer and resets `isLoading`
in a `finally` block. -/
def sendMessage (st : AppState) (prov : Provider) (now : String) :
    AppState × List Request :=
  if jsTrim st.input = "" ∨ st.isLoading = true then (st, [])
  else if jsStartsWith (jsTrim st.input) imagineCmd then
    match prov.generateImage (imagePromptOf st.input) with
    | Except.error _ =>
        ({ messages := st.messages ++ [userMessageOf st.input now, fallbackMessage now]
           input := "", isLoading := false },
         [Request.imageReq "gemini-2.5-flash-image" (imagePromptOf st.input)])
    | Except.ok resp =>
        match imageParts resp with
        | none =>
            ({ messages := st.messages ++ [userMessageOf st.input now, fallbackMessage now]
               input := "", isLoading := false },
             [Request.imageReq "gemini-2.5-flash-image" (imagePromptOf st.input)])
        | some parts =>
            if pickImageUrl parts ≠ "" then
              ({ messages := st.messages ++
                   [userMessageOf st.input now,
                    imageSuccessMessage (imagePromptOf st.input) now (pickImageUrl parts)]
                 input := "", isLoading := false },
               [Request.imageReq "gemini-2.5-flash-image" (imagePromptOf st.input)])
            else
              ({ messages := st.messages ++ [userMessageOf st.input now, fallbackMessage now]
                 input := "", isLoading := false },
               [Request.imageReq "gemini-2.5-flash-image" (imagePromptOf st.input)])
  else
    match prov.generateText (textContentsOf st.input) with
    | Except.error _ =>
        ({ messages := st.messages ++ [userMessageOf st.input now, fallbackMessage now]
           input := "", isLoading := false },
         [Request.textReq "gemini-2.5-flash" (textContentsOf st.input)])
    | Except.ok resp =>
        ({ messages := st.messages ++ [userMessageOf st.input now, textSuccessMessage resp now]
           input := "", isLoading := false },
         [Request.textReq "gemini-2.5-flash" (textContentsOf st.input)])

/-- The failure condition of a dispatched submission, read off the
source independently of `sendMessage`: in image mode the call throws,
or the `candidates[0].content.parts` access throws, or no part carries
inline data (lines 49-77); in text mode only a thrown call fails
(lines 80-106) — a missing `response.text` is not checked. -/
def dispatchFailsB (input : String) (prov : Provider) : Bool :=
  if jsStartsWith (jsTrim input) imagineCmd then
    match prov.generateImage (imagePromptOf input) with
    | Except.error _ => true
    | Except.ok resp =>
        match imageParts resp with
        | none => true
        | some parts => decide (pickImageUrl parts = "")
  else
    match prov.generateText (textContentsOf input) with
    | Except.error _ => true
    | Except.ok _ => false

/-- The step relation of the orchestrator as observed from the UI:
either the pending-input buffer is edited (the text field's onChange),
or `sendMessage` runs with some provider outcome and timestamp. -/
inductive Step : AppState → AppState → Prop where
  | typeInput (st : AppState) (s : String) : Step st { st with input := s }
  | submit (st : AppState) (prov : Provider) (now : String) :
      Step st (sendMessage st prov now).fst

/-- States reachable from the seeded initial state. -/
def Reachable (st : AppState) : Prop :=
  Relation.ReflTransGen Step initialState st

/-- Shape invariant of a single message: it never carries both
references and an image, and any image URL present is a PNG data URI
with no references alongside. -/
def WellShaped (m : Message) : Prop :=
  (m.references = none ∨ m.imageUrl = none) ∧
  ∀ u, m.imageUrl = some u →
    m.references = none ∧ ∃ rest, u = pngDataUri ++ rest

theorem guard_false {st : AppState} (hne : jsTrim st.input ≠ "")
    (hidle : st.isLoading = false) :
    ¬(jsTrim st.input = "" ∨ st.isLoading = true) := by
  rintro (h | h)
  · exact hne h
  · rw [hidle] at h
    exact Bool.false_ne_true h

theorem bool_ne_true {b : Bool} (h : b = false) : ¬(b = true) := by
  rw [h]
  exact Bool.false_ne_true

theorem jsTrim_ne_empty_of_imagine {s : String}
    (h : jsStartsWith s imagineCmd = true) : s ≠ "" := by
  intro hs
  rw [hs] at h
  exact absurd h (by decide)

theorem modelId_ne_errorId (now : String) : now ++ "-model" ≠ now ++ "-error" := by
  intro h
  have h2 := congrArg String.data h
  rw [String.data_append, String.data_append] at h2
  exact absurd (List.append_cancel_left h2) (by decide)

theorem png_append_ne_empty (s : String) : pngDataUri ++ s ≠ "" := by
  intro h
  have h2 : pngDataUri.data ++ s.data = ([] : List Char) := by
    rw [← String.data_append, h]
  exact absurd (List.append_eq_nil.mp h2).1 (by decide)

theorem imagePromptOf_strip (input rest : String)
    (h : jsTrim input = imagineCmd ++ rest) : imagePromptOf input = rest := by
  unfold imagePromptOf jsDrop
  rw [h, String.data_append]
  have hlen : imagineCmd.length = imagineCmd.data.length := rfl
  rw [hlen, List.drop_left]

theorem imageScan_foldl (parts : List Part) (acc : String) :
    parts.foldl
        (fun imageUrl part =>
          match part.inlineData with
          | some d => pngDataUri ++ d.data
          | none => imageUrl)
        acc =
      match (parts.filterMap Part.inlineData).getLast? with
      | some d => pngDataUri ++ d.data
      | none => acc := by
  induction parts using List.reverseRecOn generalizing acc with
  | nil => rfl
  | append_singleton l p ih =>
      cases hp : p.inlineData with
      | none =>
          rw [List.foldl_append]
          simp only [List.foldl_cons, List.foldl_nil, hp]
          rw [ih, List.filterMap_append]
          simp [hp]
      | some d =>
          rw [List.foldl_append]
          simp only [List.foldl_cons, List.foldl_nil, hp]
          rw [List.filterMap_append]
          simp [hp, List.getLast?_concat]

theorem pickImageUrl_of_last {parts : List Part} {d : InlineData}
    (h : (parts.filterMap Part.inlineData).getLast? = some d) :
    pickImageUrl parts = pngDataUri ++ d.data := by
  unfold pickImageUrl pickImageUrlFrom
  rw [imageScan_foldl, h]

theorem pickImageUrl_of_no_inline {parts : List Part}
    (h : (parts.filterMap Part.inlineData).getLast? = none) :
    pickImageUrl parts = "" := by
  unfold pickImageUrl pickImageUrlFrom
  rw [imageScan_foldl, h]

theorem pickImageUrl_shape {parts : List Part} (h : pickImageUrl parts ≠ "") :
    ∃ rest, pickImageUrl parts = pngDataUri ++ rest := by
  cases hl : (parts.filterMap Part.inlineData).getLast? with
  | none => exact absurd (pickImageUrl_of_no_inline hl) h
  | some d => exact ⟨d.data, pickImageUrl_of_last hl⟩

theorem sendMessage_noop {st : AppState} (prov : Provider) (now : String)
    (h : jsTrim st.input = "" ∨ st.isLoading = true) :
    sendMessage st prov now = (st, []) := by
  unfold sendMessage
  rw [if_pos h]

theorem sendMessage_image_throw {st : AppState} {prov : Provider} (now : String)
    (hne : jsTrim st.input ≠ "") (hidle : st.isLoading = false)
    (himg : jsStartsWith (jsTrim st.input) imagineCmd = true)
    (herr : prov.generateImage (imagePromptOf st.input) = Except.error ()) :
    sendMessage st prov now =
      ({ messages := st.messages ++ [userMessageOf st.input now, fallbackMessage now]
         input := "", isLoading := false },
       [Request.imageReq "gemini-2.5-flash-image" (imagePromptOf st.input)]) := by
  unfold sendMessage
  rw [if_neg (guard_false hne hidle), if_pos himg, herr]

theorem sendMessage_image_badParts {st : AppState} {prov : Provider} (now : String)
    {resp : ImageResponse}
    (hne : jsTrim st.input ≠ "") (hidle : st.isLoading = false)
    (himg : jsStartsWith (jsTrim st.input) imagineCmd = true)
    (hok : prov.generateImage (imagePromptOf st.input) = Except.ok resp)
    (hparts : imageParts resp = none) :
    sendMessage st prov now =
      ({ messages := st.messages ++ [userMessageOf st.input now, fallbackMessage now]
         input := "", isLoading := false },
       [Request.imageReq "gemini-2.5-flash-image" (imagePromptOf st.input)]) := by
  unfold sendMessage
  rw [if_neg (guard_false hne hidle), if_pos himg]
  simp only [hok, hparts]

theorem sendMessage_image_noData {st : AppState} {prov : Provider} (now : String)
    {resp : ImageResponse} {parts : List Part}
    (hne : jsTrim st.input ≠ "") (hidle : st.isLoading = false)
    (himg : jsStartsWith (jsTrim st.input) imagineCmd = true)
    (hok : prov.generateImage (imagePromptOf st.input) = Except.ok resp)
    (hparts : imageParts resp = some parts)
    (hurl : pickImageUrl parts = "") :
    sendMessage st prov now =
      ({ messages := st.messages ++ [userMessageOf st.input now, fallbackMessage now]
         input := "", isLoading := false },
       [Request.imageReq "gemini-2.5-flash-image" (imagePromptOf st.input)]) := by
  unfold sendMessage
  rw [if_neg (guard_false hne hidle), if_pos himg]
  simp only [hok, hparts, hurl]
  rw [if_neg (by simp)]

theorem sendMessage_image_success {st : AppState} {prov : Provider} (now : String)
    {resp : ImageResponse} {parts : List Part}
    (hne : jsTrim st.input ≠ "") (hidle : st.isLoading = false)
    (himg : jsStartsWith (jsTrim st.input) imagineCmd = true)
    (hok : prov.generateImage (imagePromptOf st.input) = Except.ok resp)
    (hparts : imageParts resp = some parts)
    (hurl : pickImageUrl parts ≠ "") :
    sendMessage st prov now =
      ({ messages := st.messages ++
           [userMessageOf st.input now,
            imageSuccessMessage (imagePromptOf st.input) now (pickImageUrl parts)]
         input := "", isLoading := false },
       [Request.imageReq "gemini-2.5-flash-image" (imagePromptOf st.input)]) := by
  unfold sendMessage
  rw [if_neg (guard_false hne hidle), if_pos himg]
  simp only [hok, hparts]
  rw [if_pos hurl]

theorem sendMessage_text_throw {st : AppState} {prov : Provider} (now : String)
    (hne : jsTrim st.input ≠ "") (hidle : st.isLoading = false)
    (htext : jsStartsWith (jsTrim st.input) imagineCmd = false)
    (herr : prov.generateText (textContentsOf st.input) = Except.error ()) :
    sendMessage st prov now =
      ({ messages := st.messages ++ [userMessageOf st.input now, fallbackMessage now]
         input := "", isLoading := false },
       [Request.textReq "gemini-2.5-flash" (textContentsOf st.input)]) := by
  unfold sendMessage
  rw [if_neg (guard_false hne hidle), if_neg (bool_ne_true htext)]
  simp only [herr]

theorem sendMessage_text_success {st : AppState} {prov : Provider} (now : String)
    {resp : TextResponse}
    (hne : jsTrim st.input ≠ "") (hidle : st.isLoading = false)
    (htext : jsStartsWith (jsTrim st.input) imagineCmd = false)
    (hok : prov.generateText (textContentsOf st.input) = Except.ok resp) :
    sendMessage st prov now =
      ({ messages := st.messages ++ [userMessageOf st.input now, textSuccessMessage resp now]
         input := "", isLoading := false },
       [Request.textReq "gemini-2.5-flash" (textContentsOf st.input)]) := by
  unfold sendMessage
  rw [if_neg (guard_false hne hidle), if_neg (bool_ne_true htext)]
  simp only [hok]

theorem wellShaped_of_no_image {m : Message} (h : m.imageUrl = none) :
    WellShaped m := by
  refine ⟨Or.inr h, ?_⟩
  intro u hu
  rw [h] at hu
  exact absurd hu (by simp)

theorem wellShaped_imageSuccess (prompt now : String) {parts : List Part}
    (h : pickImageUrl parts ≠ "") :
    WellShaped (imageSuccessMessage prompt now (pickImageUrl parts)) := by
  refine ⟨Or.inl rfl, ?_⟩
  intro u hu
  refine ⟨rfl, ?_⟩
  have hu2 : pickImageUrl parts = u := by
    simpa [imageSuccessMessage] using hu
  rcases pickImageUrl_shape h with ⟨rest, hr⟩
  exact ⟨rest, by rw [← hu2, hr]⟩

theorem mem_two_append {α : Type} {l : List α} {a b x : α}
    (h : x ∈ l ++ [a, b]) : x ∈ l ∨ x = a ∨ x = b := by
  rcases List.mem_append.mp h with h | h
  · exact Or.inl h
  · simp at h
    exact Or.inr h

theorem sendMessage_mem (st : AppState) (prov : Provider) (now : String) :
    ∀ m ∈ (sendMessage st prov now).fst.messages, m ∈ st.messages ∨ WellShaped m := by
  by_cases hg : jsTrim st.input = "" ∨ st.isLoading = true
  · rw [sendMessage_noop prov now hg]
    intro m hm
    exact Or.inl hm
  · push_neg at hg
    obtain ⟨hne, hload⟩ := hg
    have hidle : st.isLoading = false := by
      cases h : st.isLoading
      · rfl
      · exact absurd h hload
    cases himg : jsStartsWith (jsTrim st.input) imagineCmd with
    | true =>
        cases hok : prov.generateImage (imagePromptOf st.input) with
        | error e =>
            cases e
            rw [sendMessage_image_throw now hne hidle himg hok]
            intro m hm
            rcases mem_two_append hm with h | h | h
            · exact Or.inl h
            · exact Or.inr (by rw [h]; exact wellShaped_of_no_image rfl)
            · exact Or.inr (by rw [h]; exact wellShaped_of_no_image rfl)
        | ok resp =>
            cases hparts : imageParts resp with
            | none =>
                rw [sendMessage_image_badParts now hne hidle himg hok hparts]
                intro m hm
                rcases mem_two_append hm with h | h | h
                · exact Or.inl h
                · exact Or.inr (by rw [h]; exact wellShaped_of_no_image rfl)
                · exact Or.inr (by rw [h]; exact wellShaped_of_no_image rfl)
            | some parts =>
                by_cases hurl : pickImageUrl parts = ""
                · rw [sendMessage_image_noData now hne hidle himg hok hparts hurl]
                  intro m hm
                  rcases mem_two_append hm with h | h | h
                  · exact Or.inl h
                  · exact Or.inr (by rw [h]; exact wellShaped_of_no_image rfl)
                  · exact Or.inr (by rw [h]; exact wellShaped_of_no_image rfl)
                · rw [sendMessage_image_success now hne hidle himg hok hparts hurl]
                  intro m hm
                  rcases mem_two_append hm with h | h | h
                  · exact Or.inl h
                  · exact Or.inr (by rw [h]; exact wellShaped_of_no_image rfl)
                  · exact Or.inr (by rw [h]; exact wellShaped_imageSuccess _ now hurl)
    | false =>
        cases hok : prov.generateText (textContentsOf st.input) with
        | error e =>
            cases e
            rw [sendMessage_text_throw now hne hidle himg hok]
            intro m hm
            rcases mem_two_append hm with h | h | h
            · exact Or.inl h
            · exact Or.inr (by rw [h]; exact wellShaped_of_no_image rfl)
            · exact Or.inr (by rw [h]; exact wellShaped_of_no_image rfl)
        | ok resp =>
            rw [sendMessage_text_success now hne hidle himg hok]
            intro m hm
            rcases mem_two_append hm with h | h | h
            · exact Or.inl h
            · exact Or.inr (by rw [h]; exact wellShaped_of_no_image rfl)
            · exact Or.inr (by rw [h]; exact wellShaped_of_no_image rfl)

/-- A concrete idle state over an empty log, used by the witnesses. -/
def wSt (input : String) : AppState :=
  { messages := [], input := input, isLoading := false }

/-- A provider whose calls always throw. -/
def errProvider : Provider :=
  { generateImage := fun _ => Except.error ()
    generateText := fun _ => Except.error () }

/-- The parts of a two-image response: two inline payloads. -/
def twoParts : List Part :=
  [{ inlineData := some { data := "AAA" } },
   { inlineData := some { data := "BBB" } }]

/-- An image response whose first candidate carries `twoParts`. -/
def twoPartResponse : ImageResponse :=
  { candidates := some [{ content := some { parts := twoParts } }] }

/-- A provider answering image calls with `twoPartResponse`. -/
def imageProvider : Provider :=
  { generateImage := fun _ => Except.ok twoPartResponse
    generateText := fun _ => Except.error () }

/-- A grounded text response: one valid chunk, one with an empty uri,
one with no web object. -/
def groundedChunks : List GroundingChunk :=
  [{ web := some { uri := some "https://a", title := some "A" } },
   { web := some { uri := some "", title := some "B" } },
   { web := none }]

def groundedCandidate : TextCandidate :=
  { groundingMetadata := some { groundingChunks := some groundedChunks } }

def groundedResponse : TextResponse :=
  { text := some "Great question!"
    candidates := some [groundedCandidate] }

/-- A provider answering text calls with `groundedResponse`. -/
def textProvider : Provider :=
  { generateImage := fun _ => Except.error ()
    generateText := fun _ => Except.ok groundedResponse }

/-- A text response with every field absent (in particular no text). -/
def noTextResponse : TextResponse := {}

/-- A provider answering text calls with `noTextResponse`. -/
def noTextProvider : Provider :=
  { generateImage := fun _ => Except.error ()
    generateText := fun _ => Except.ok noTextResponse }

set_option maxRecDepth 16384

/-- C1: while a request is in flight (`isLoading = true`, the
AWAITING_RESPONSE state), submitting any input is a no-op: the state —
hence the conversation sequence — is unchanged, no provider request is
dispatched, and the flag stays set. -/
theorem inflight_submit_is_noop (st : AppState) (prov : Provider) (now : String)
    (h : st.isLoading = true) :
    sendMessage st prov now = (st, []) ∧
    (sendMessage st prov now).fst.messages = st.messages ∧
    (sendMessage st prov now).fst.isLoading = true := by
  have hn := sendMessage_noop prov now (Or.inr h)
  exact ⟨hn, by rw [hn], by rw [hn]; exact h⟩

/-- Witness for C1 at a concrete in-flight state. -/
theorem inflight_submit_is_noop_witness :
    sendMessage { messages := [], input := "hello", isLoading := true } errProvider "1" =
      ({ messages := [], input := "hello", isLoading := true }, []) ∧
    (sendMessage { messages := [], input := "hello", isLoading := true } errProvider "1").fst.messages =
      ([] : List Message) ∧
    (sendMessage { messages := [], input := "hello", isLoading := true } errProvider "1").fst.isLoading =
      true :=
  inflight_submit_is_noop { messages := [], input := "hello", isLoading := true }
    errProvider "1" rfl

/-- C2: every accepted submission resets the in-flight flag to IDLE on
success and failure alike; and when dispatch or normalization fails,
exactly one fallback MODEL message — fixed text, no references, no
image — is appended after the USER message. -/
theorem failure_appends_fallback_and_resets (st : AppState) (prov : Provider)
    (now : String)
    (hne : jsTrim st.input ≠ "") (hidle : st.isLoading = false) :
    (sendMessage st prov now).fst.isLoading = false ∧
    (dispatchFailsB st.input prov = true →
      (sendMessage st prov now).fst.messages =
        st.messages ++ [userMessageOf st.input now, fallbackMessage now] ∧
      (fallbackMessage now).author = Author.MODEL ∧
      (fallbackMessage now).text = some "Sorry, I encountered an error. Please try again." ∧
      (fallbackMessage now).references = none ∧
      (fallbackMessage now).imageUrl = none) := by
  cases himg : jsStartsWith (jsTrim st.input) imagineCmd with
  | true =>
      cases hok : prov.generateImage (imagePromptOf st.input) with
      | error e =>
          cases e
          rw [sendMessage_image_throw now hne hidle himg hok]
          exact ⟨rfl, fun _ => ⟨rfl, rfl, rfl, rfl, rfl⟩⟩
      | ok resp =>
          cases hparts : imageParts resp with
          | none =>
              rw [sendMessage_image_badParts now hne hidle himg hok hparts]
              exact ⟨rfl, fun _ => ⟨rfl, rfl, rfl, rfl, rfl⟩⟩
          | some parts =>
              by_cases hurl : pickImageUrl parts = ""
              · rw [sendMessage_image_noData now hne hidle himg hok hparts hurl]
                exact ⟨rfl, fun _ => ⟨rfl, rfl, rfl, rfl, rfl⟩⟩
              · rw [sendMessage_image_success now hne hidle himg hok hparts hurl]
                refine ⟨rfl, fun hfail => ?_⟩
                exfalso
                simp [dispatchFailsB, himg, hok, hparts, hurl] at hfail
  | false =>
      cases hok : prov.generateText (textContentsOf st.input) with
      | error e =>
          cases e
          rw [sendMessage_text_throw now hne hidle himg hok]
          exact ⟨rfl, fun _ => ⟨rfl, rfl, rfl, rfl, rfl⟩⟩
      | ok resp =>
          rw [sendMessage_text_success now hne hidle himg hok]
          refine ⟨rfl, fun hfail => ?_⟩
          exfalso
          simp [dispatchFailsB, himg, hok] at hfail

/-- Witness for C2: a throwing provider on the input `"hi"`. -/
theorem failure_appends_fallback_and_resets_witness :
    jsTrim "hi" ≠ "" ∧
    ((sendMessage (wSt "hi") errProvider "1").fst.isLoading = false ∧
     (dispatchFailsB "hi" errProvider = true →
       (sendMessage (wSt "hi") errProvider "1").fst.messages =
         (wSt "hi").messages ++ [userMessageOf "hi" "1", fallbackMessage "1"] ∧
       (fallbackMessage "1").author = Author.MODEL ∧
       (fallbackMessage "1").text = some "Sorry, I encountered an error. Please try again." ∧
       (fallbackMessage "1").references = none ∧
       (fallbackMessage "1").imageUrl = none)) :=
  ⟨by decide, failure_appends_fallback_and_resets (wSt "hi") errProvider "1" (by decide) rfl⟩

/-- C3: an input whose trimmed text starts with `/imagine ` is
classified IMAGE: the single dispatched request carries the trimmed
text with that exact prefix stripped as its prompt, and on success the
appended MODEL message is captioned `Here is my take on: "<prompt>"`. -/
theorem imagine_mode_prompt_and_caption (st : AppState) (prov : Provider)
    (now : String)
    (hidle : st.isLoading = false)
    (himg : jsStartsWith (jsTrim st.input) imagineCmd = true) :
    (sendMessage st prov now).snd =
      [Request.imageReq "gemini-2.5-flash-image" (imagePromptOf st.input)] ∧
    (∀ rest, jsTrim st.input = imagineCmd ++ rest → imagePromptOf st.input = rest) ∧
    (∀ resp parts,
      prov.generateImage (imagePromptOf st.input) = Except.ok resp →
      imageParts resp = some parts →
      pickImageUrl parts ≠ "" →
      (sendMessage st prov now).fst.messages =
        st.messages ++
          [userMessageOf st.input now,
           { author := Author.MODEL
             text := some ("Here is my take on: \"" ++ imagePromptOf st.input ++ "\"")
             id := now ++ "-model"
             references := none
             imageUrl := some (pickImageUrl parts) }]) := by
  have hne : jsTrim st.input ≠ "" := jsTrim_ne_empty_of_imagine himg
  refine ⟨?_, fun rest h => imagePromptOf_strip st.input rest h, ?_⟩
  · cases hok : prov.generateImage (imagePromptOf st.input) with
    | error e =>
        cases e
        rw [sendMessage_image_throw now hne hidle himg hok]
    | ok resp =>
        cases hparts : imageParts resp with
        | none => rw [sendMessage_image_badParts now hne hidle himg hok hparts]
        | some parts =>
            by_cases hurl : pickImageUrl parts = ""
            · rw [sendMessage_image_noData now hne hidle himg hok hparts hurl]
            · rw [sendMessage_image_success now hne hidle himg hok hparts hurl]
  · intro resp parts hok hparts hurl
    rw [sendMessage_image_success now hne hidle himg hok hparts hurl]
    rfl

/-- Witness for C3: the input `"/imagine a logo"` against a provider
returning `twoPartResponse`. -/
theorem imagine_mode_prompt_and_caption_witness :
    jsStartsWith (jsTrim "/imagine a logo") imagineCmd = true ∧
    (sendMessage (wSt "/imagine a logo") imageProvider "1").snd =
      [Request.imageReq "gemini-2.5-flash-image" "a logo"] ∧
    imagePromptOf "/imagine a logo" = "a logo" ∧
    (sendMessage (wSt "/imagine a logo") imageProvider "1").fst.messages =
      [userMessageOf "/imagine a logo" "1",
       { author := Author.MODEL
         text := some "Here is my take on: \"a logo\""
         id := "1-model"
         references := none
         imageUrl := some "data:image/png;base64,BBB" }] := by
  have h := imagine_mode_prompt_and_caption (wSt "/imagine a logo") imageProvider "1"
    rfl (by decide)
  refine ⟨by decide, ?_, ?_, ?_⟩
  · exact h.1.trans (by decide)
  · exact h.2.1 "a logo" (by decide)
  · exact (h.2.2 twoPartResponse twoParts rfl rfl (by decide)).trans (by decide)

/-- C4 counterexample: for the TEXT-mode input `" hi "` the dispatched
request concatenates the raw, untrimmed input after the persona
preamble, which differs from the trimmed input the claim requires. -/
theorem text_prompt_not_trimmed_cex :
    (sendMessage (wSt " hi ") errProvider "1").snd =
      [Request.textReq "gemini-2.5-flash" (personaPreamble ++ " hi ")] ∧
    jsTrim " hi " = "hi" ∧
    personaPreamble ++ " hi " ≠ personaPreamble ++ "hi" :=
  ⟨by decide, by decide, by decide⟩

/-- C4 amended: for every input whose trimmed text does not begin with
`/imagine `, classification yields TEXT and the dispatched request is
the persona instruction concatenated with the full RAW (untrimmed)
input; trimming affects only classification. -/
theorem text_mode_contents_raw (st : AppState) (prov : Provider) (now : String)
    (hne : jsTrim st.input ≠ "") (hidle : st.isLoading = false)
    (htext : jsStartsWith (jsTrim st.input) imagineCmd = false) :
    (sendMessage st prov now).snd =
      [Request.textReq "gemini-2.5-flash" (personaPreamble ++ st.input)] := by
  cases hok : prov.generateText (textContentsOf st.input) with
  | error e =>
      cases e
      rw [sendMessage_text_throw now hne hidle htext hok]
      rfl
  | ok resp =>
      rw [sendMessage_text_success now hne hidle htext hok]
      rfl

/-- Witness for the amended C4 at the input `" hi "`. -/
theorem text_mode_contents_raw_witness :
    jsTrim " hi " ≠ "" ∧
    jsStartsWith (jsTrim " hi ") imagineCmd = false ∧
    (sendMessage (wSt " hi ") errProvider "1").snd =
      [Request.textReq "gemini-2.5-flash" (personaPreamble ++ " hi ")] :=
  ⟨by decide, by decide,
    text_mode_contents_raw (wSt " hi ") errProvider "1" (by decide) rfl (by decide)⟩

/-- C5 counterexample: on a response whose parts carry two inline
payloads ("AAA" first, "BBB" last) the resulting message's imageUrl is
built from the LAST payload, not the first as the claim states. -/
theorem image_url_not_first_cex :
    imageParts twoPartResponse = some twoParts ∧
    (twoParts.filterMap Part.inlineData).head? = some { data := "AAA" } ∧
    (sendMessage (wSt "/imagine x") imageProvider "1").fst.messages.getLast? =
      some { author := Author.MODEL
             text := some "Here is my take on: \"x\""
             id := "1-model"
             references := none
             imageUrl := some "data:image/png;base64,BBB" } ∧
    some ("data:image/png;base64,BBB" : String) ≠ some (pngDataUri ++ "AAA") :=
  ⟨by decide, by decide, by decide, by decide⟩

/-- C5 amended: the image-URL scan overwrites on every part carrying
inline data, so normalization selects the LAST such part's payload and
the message's imageUrl is `data:image/png;base64,` followed by it. -/
theorem image_url_uses_last_inline (st : AppState) (prov : Provider) (now : String)
    (resp : ImageResponse) (parts : List Part) (d : InlineData)
    (hidle : st.isLoading = false)
    (himg : jsStartsWith (jsTrim st.input) imagineCmd = true)
    (hok : prov.generateImage (imagePromptOf st.input) = Except.ok resp)
    (hparts : imageParts resp = some parts)
    (hlast : (parts.filterMap Part.inlineData).getLast? = some d) :
    (sendMessage st prov now).fst.messages.getLast? =
      some (imageSuccessMessage (imagePromptOf st.input) now (pngDataUri ++ d.data)) ∧
    (imageSuccessMessage (imagePromptOf st.input) now (pngDataUri ++ d.data)).imageUrl =
      some (pngDataUri ++ d.data) := by
  have hne : jsTrim st.input ≠ "" := jsTrim_ne_empty_of_imagine himg
  have hpick : pickImageUrl parts = pngDataUri ++ d.data := pickImageUrl_of_last hlast
  have hurl : pickImageUrl parts ≠ "" := by
    rw [hpick]
    exact png_append_ne_empty d.data
  refine ⟨?_, rfl⟩
  rw [sendMessage_image_success now hne hidle himg hok hparts hurl]
  show (st.messages ++
      [userMessageOf st.input now,
       imageSuccessMessage (imagePromptOf st.input) now (pickImageUrl parts)]).getLast? = _
  rw [show st.messages ++
        [userMessageOf st.input now,
         imageSuccessMessage (imagePromptOf st.input) now (pickImageUrl parts)] =
      (st.messages ++ [userMessageOf st.input now]) ++
        [imageSuccessMessage (imagePromptOf st.input) now (pickImageUrl parts)] by
    simp]
  rw [List.getLast?_concat, hpick]

/-- Witness for the amended C5 on the two-payload response. -/
theorem image_url_uses_last_inline_witness :
    jsStartsWith (jsTrim "/imagine x") imagineCmd = true ∧
    (twoParts.filterMap Part.inlineData).getLast? = some { data := "BBB" } ∧
    (sendMessage (wSt "/imagine x") imageProvider "1").fst.messages.getLast? =
      some (imageSuccessMessage (imagePromptOf "/imagine x") "1" (pngDataUri ++ "BBB")) ∧
    (imageSuccessMessage (imagePromptOf "/imagine x") "1" (pngDataUri ++ "BBB")).imageUrl =
      some (pngDataUri ++ "BBB") := by
  have h := image_url_uses_last_inline (wSt "/imagine x") imageProvider "1"
    twoPartResponse twoParts { data := "BBB" } rfl (by decide) rfl rfl (by decide)
  exact ⟨by decide, by decide, h.1, h.2⟩

/-- C6 counterexample: a TEXT-mode response with a missing `text` field
is NOT treated as a failure — a normal MODEL message with an absent
text is appended instead of the fallback message. -/
theorem missing_text_not_failure_cex :
    noTextResponse.text = none ∧
    dispatchFailsB "hello" noTextProvider = false ∧
    (sendMessage (wSt "hello") noTextProvider "1").fst.messages =
      [userMessageOf "hello" "1",
       { author := Author.MODEL
         text := none
         id := "1-model"
         references := none
         imageUrl := none }] ∧
    ({ author := Author.MODEL
       text := none
       id := "1-model"
       references := none
       imageUrl := none } : Message) ≠ fallbackMessage "1" :=
  ⟨rfl, by decide, by decide, by decide⟩

/-- C6 amended: for an accepted submission the fallback path is taken
exactly when dispatch fails per `dispatchFailsB`: the network call
throws, the image response's `candidates[0].content.parts` access
throws, or image mode yields no inline payload — a TEXT-mode response
with a missing text field is not a failure. -/
theorem fallback_iff_dispatch_fails (st : AppState) (prov : Provider) (now : String)
    (hne : jsTrim st.input ≠ "") (hidle : st.isLoading = false) :
    ((sendMessage st prov now).fst.messages =
       st.messages ++ [userMessageOf st.input now, fallbackMessage now]) ↔
    dispatchFailsB st.input prov = true := by
  cases himg : jsStartsWith (jsTrim st.input) imagineCmd with
  | true =>
      cases hok : prov.generateImage (imagePromptOf st.input) with
      | error e =>
          cases e
          rw [sendMessage_image_throw now hne hidle himg hok]
          exact iff_of_true rfl (by simp [dispatchFailsB, himg, hok])
      | ok resp =>
          cases hparts : imageParts resp with
          | none =>
              rw [sendMessage_image_badParts now hne hidle himg hok hparts]
              exact iff_of_true rfl (by simp [dispatchFailsB, himg, hok, hparts])
          | some parts =>
              by_cases hurl : pickImageUrl parts = ""
              · rw [sendMessage_image_noData now hne hidle himg hok hparts hurl]
                exact iff_of_true rfl (by simp [dispatchFailsB, himg, hok, hparts, hurl])
              · rw [sendMessage_image_success now hne hidle himg hok hparts hurl]
                refine iff_of_false ?_ (by simp [dispatchFailsB, himg, hok, hparts, hurl])
                intro h
                have h2 := List.append_cancel_left h
                have h3 : imageSuccessMessage (imagePromptOf st.input) now (pickImageUrl parts) =
                    fallbackMessage now := by
                  simpa using h2
                have h6 := congrArg Message.imageUrl h3
                simp [imageSuccessMessage, fallbackMessage] at h6
  | false =>
      cases hok : prov.generateText (textContentsOf st.input) with
      | error e =>
          cases e
          rw [sendMessage_text_throw now hne hidle himg hok]
          exact iff_of_true rfl (by simp [dispatchFailsB, himg, hok])
      | ok resp =>
          rw [sendMessage_text_success now hne hidle himg hok]
          refine iff_of_false ?_ (by simp [dispatchFailsB, himg, hok])
          intro h
          have h2 := List.append_cancel_left h
          have h3 : textSuccessMessage resp now = fallbackMessage now := by
            simpa using h2
          have h6 := congrArg Message.id h3
          exact modelId_ne_errorId now h6

/-- Witness for the amended C6: a throwing provider on `"hello"`. -/
theorem fallback_iff_dispatch_fails_witness :
    jsTrim "hello" ≠ "" ∧
    ((sendMessage (wSt "hello") errProvider "1").fst.messages =
       (wSt "hello").messages ++ [userMessageOf "hello" "1", fallbackMessage "1"] ↔
     dispatchFailsB "hello" errProvider = true) :=
  ⟨by decide, fallback_iff_dispatch_fails (wSt "hello") errProvider "1" (by decide) rfl⟩

/-- C7: TEXT-mode normalization maps each grounding chunk to a
{uri, title} entry and drops every entry with a missing or empty uri or
title; the references field of the appended MODEL message is absent
exactly when the raw response had no grounding-chunk chain at all, while
a present but all-invalid chunk list yields a present empty sequence. -/
theorem references_normalization (st : AppState) (prov : Provider) (now : String)
    (resp : TextResponse)
    (hne : jsTrim st.input ≠ "") (hidle : st.isLoading = false)
    (htext : jsStartsWith (jsTrim st.input) imagineCmd = false)
    (hok : prov.generateText (textContentsOf st.input) = Except.ok resp) :
    (sendMessage st prov now).fst.messages =
      st.messages ++
        [userMessageOf st.input now,
         { author := Author.MODEL
           text := resp.text
           id := now ++ "-model"
           references := (groundingChunksOf resp).map buildRefs
           imageUrl := none }] ∧
    (∀ cs r, r ∈ buildRefs cs → truthy r.uri = true ∧ truthy r.title = true) ∧
    (∀ cs r, r ∈ cs.map chunkToRef →
      (truthy r.uri = false ∨ truthy r.title = false) → r ∉ buildRefs cs) ∧
    (∀ cs, (∀ r ∈ cs.map chunkToRef, truthy r.uri = false ∨ truthy r.title = false) →
      buildRefs cs = []) := by
  refine ⟨?_, ?_, ?_, ?_⟩
  · rw [sendMessage_text_success now hne hidle htext hok]
    rfl
  · intro cs r hr
    have h2 := (List.mem_filter.mp hr).2
    exact ⟨(Bool.and_eq_true _ _ |>.mp h2).1, (Bool.and_eq_true _ _ |>.mp h2).2⟩
  · intro cs r _ hbad hrf
    have h2 := (List.mem_filter.mp hrf).2
    rcases hbad with hb | hb
    · rw [hb] at h2
      simp at h2
    · rw [hb] at h2
      simp at h2
  · intro cs hall
    rw [buildRefs]
    rw [List.filter_eq_nil_iff]
    intro r hr
    rcases hall r hr with hb | hb
    · simp [hb]
    · simp [hb]

/-- Witness for C7: `groundedResponse` carries one valid chunk, one
with an empty uri and one with no web object; only the valid one
survives. -/
theorem references_normalization_witness :
    jsTrim "hello" ≠ "" ∧
    (sendMessage (wSt "hello") textProvider "1").fst.messages =
      (wSt "hello").messages ++
        [userMessageOf "hello" "1",
         { author := Author.MODEL
           text := groundedResponse.text
           id := "1-model"
           references := (groundingChunksOf groundedResponse).map buildRefs
           imageUrl := none }] ∧
    (groundingChunksOf groundedResponse).map buildRefs =
      some [{ uri := some "https://a", title := some "A" }] ∧
    groundingChunksOf noTextResponse = none := by
  have h := references_normalization (wSt "hello") textProvider "1" groundedResponse
    (by decide) rfl (by decide) rfl
  exact ⟨by decide, h.1, by decide, rfl⟩

/-- C8: in every state reachable from the seeded initial state, every
message of the conversation is well-shaped: it never carries both
references and an image, and whenever an imageUrl is present it is
`data:image/png;base64,` followed by a payload and the message has no
references field.  This covers the greeting, both success shapes and
the error fallback. -/
theorem message_shape_invariant (st : AppState) (hst : Reachable st) :
    ∀ m ∈ st.messages, WellShaped m := by
  unfold Reachable at hst
  induction hst with
  | refl =>
      intro m hm
      have hm2 : m = greetingMessage := by
        simpa [initialState] using hm
      rw [hm2]
      exact wellShaped_of_no_image rfl
  | tail hab hbc ih =>
      cases hbc with
      | typeInput s =>
          intro m hm
          exact ih m hm
      | submit prov now =>
          intro m hm
          rcases sendMessage_mem _ prov now m hm with h | h
          · exact ih m h
          · exact h

/-- Witness for C8 at the initial state and its greeting message. -/
theorem message_shape_invariant_witness :
    WellShaped greetingMessage :=
  message_shape_invariant initialState Relation.ReflTransGen.refl
    greetingMessage (by simp [initialState])

/-- C9 counterexample: the bare command token `/imagine` with nothing
following is NOT rejected: the submit is accepted, a USER message is
appended and a TEXT-mode request is dispatched. -/
theorem bare_imagine_not_rejected_cex :
    jsTrim "/imagine" = "/imagine" ∧
    (sendMessage (wSt "/imagine") errProvider "1").snd =
      [Request.textReq "gemini-2.5-flash" (personaPreamble ++ "/imagine")] ∧
    (sendMessage (wSt "/imagine") errProvider "1").fst.messages =
      [userMessageOf "/imagine" "1", fallbackMessage "1"] :=
  ⟨by decide, by decide, by decide⟩

/-- C9 amended: empty or whitespace-only submissions are rejected before
classification — no USER message, no request, state unchanged (so an
IDLE state stays IDLE) — but input whose trimmed text is the bare token
`/imagine` is accepted and routed as a TEXT request. -/
theorem empty_rejected_bare_imagine_is_text (st : AppState) (prov : Provider)
    (now : String) :
    (jsTrim st.input = "" → sendMessage st prov now = (st, [])) ∧
    (st.isLoading = false → jsTrim st.input = "/imagine" →
      (sendMessage st prov now).snd =
        [Request.textReq "gemini-2.5-flash" (personaPreamble ++ st.input)] ∧
      ∃ m2, (sendMessage st prov now).fst.messages =
        st.messages ++ [userMessageOf st.input now, m2]) := by
  refine ⟨fun h => sendMessage_noop prov now (Or.inl h), fun hidle htrim => ?_⟩
  have hne : jsTrim st.input ≠ "" := by
    rw [htrim]
    decide
  have htext : jsStartsWith (jsTrim st.input) imagineCmd = false := by
    rw [htrim]
    decide
  cases hok : prov.generateText (textContentsOf st.input) with
  | error e =>
      cases e
      rw [sendMessage_text_throw now hne hidle htext hok]
      exact ⟨rfl, fallbackMessage now, rfl⟩
  | ok resp =>
      rw [sendMessage_text_success now hne hidle htext hok]
      exact ⟨rfl, textSuccessMessage resp now, rfl⟩

/-- Witness for the amended C9: the no-op half at a whitespace-only
input and the accepted half at the bare token. -/
theorem empty_rejected_bare_imagine_is_text_witness :
    sendMessage (wSt "   ") errProvider "1" = (wSt "   ", []) ∧
    ((sendMessage (wSt "/imagine") errProvider "1").snd =
       [Request.textReq "gemini-2.5-flash" (personaPreamble ++ "/imagine")] ∧
     ∃ m2, (sendMessage (wSt "/imagine") errProvider "1").fst.messages =
       (wSt "/imagine").messages ++ [userMessageOf "/imagine" "1", m2]) :=
  ⟨(empty_rejected_bare_imagine_is_text (wSt "   ") errProvider "1").1 (by decide),
   (empty_rejected_bare_imagine_is_text (wSt "/imagine") errProvider "1").2 rfl (by decide)⟩

/-- C10: every accepted submission appends a USER message whose text is
the raw submitted input — untrimmed, any `/imagine ` prefix retained —
followed by exactly one MODEL message. -/
theorem user_message_keeps_raw_input (st : AppState) (prov : Provider) (now : String)
    (hne : jsTrim st.input ≠ "") (hidle : st.isLoading = false) :
    ∃ m2, (sendMessage st prov now).fst.messages =
      st.messages ++ [{ author := Author.USER, text := some st.input, id := now }, m2] := by
  cases himg : jsStartsWith (jsTrim st.input) imagineCmd with
  | true =>
      cases hok : prov.generateImage (imagePromptOf st.input) with
      | error e =>
          cases e
          rw [sendMessage_image_throw now hne hidle himg hok]
          exact ⟨fallbackMessage now, rfl⟩
      | ok resp =>
          cases hparts : imageParts resp with
          | none =>
              rw [sendMessage_image_badParts now hne hidle himg hok hparts]
              exact ⟨fallbackMessage now, rfl⟩
          | some parts =>
              by_cases hurl : pickImageUrl parts = ""
              · rw [sendMessage_image_noData now hne hidle himg hok hparts hurl]
                exact ⟨fallbackMessage now, rfl⟩
              · rw [sendMessage_image_success now hne hidle himg hok hparts hurl]
                exact ⟨imageSuccessMessage (imagePromptOf st.input) now (pickImageUrl parts), rfl⟩
  | false =>
      cases hok : prov.generateText (textContentsOf st.input) with
      | error e =>
          cases e
          rw [sendMessage_text_throw now hne hidle himg hok]
          exact ⟨fallbackMessage now, rfl⟩
      | ok resp =>
          rw [sendMessage_text_success now hne hidle himg hok]
          exact ⟨textSuccessMessage resp now, rfl⟩

/-- Witness for C10 at the prefixed, unpadded-and-padded input
`"  /imagine a logo "`: the stored USER text keeps spaces and prefix. -/
theorem user_message_keeps_raw_input_witness :
    jsTrim "  /imagine a logo " ≠ "" ∧
    (∃ m2, (sendMessage (wSt "  /imagine a logo ") imageProvider "1").fst.messages =
      (wSt "  /imagine a logo ").messages ++
        [{ author := Author.USER, text := some "  /imagine a logo ", id := "1" }, m2]) :=
  ⟨by decide,
   user_message_keeps_raw_input (wSt "  /imagine a logo ") imageProvider "1" (by decide) rfl⟩

end MigosiMentor
